import Mathlib

/-!
Verification development for the test-to-work-item synchronization engine of
the sbsaa repository (pytest driving UI tests, with Azure DevOps work-item
integration).

The embedding translates, from the Python sources:
  * config/azure_config.py — class AzureConfig (layered configuration merge
    and validation);
  * azure_integration/azure_devops_client.py — class AzureDevOpsClient
    (work-item creation, linking and result updates, expressed as pure
    functions returning the wire operations they would issue) and class
    TestCaseMapper (the file-backed test-to-work-item mapping store);
  * conftest.py — the identifier resolution of azure_devops_integration_fixture
    and the pytest_runtest_logreport synchronization hook.

Remote I/O is modelled by returning the list of wire operations a call would
issue, plus an Except ServiceError result driven by an explicit
ServiceBehavior parameter standing for the external service.  Python dicts
built by successive assignment or dict.update are modelled as association
lists in which later entries shadow earlier ones.
-/

/-! ## Basic modelling helpers -/

/-- Python truthiness of an optional string argument, as in `if value:` over
a value that is either a string or None: None and the empty string are
falsy. -/
def pyTruthyStr : Option String → Bool
  | none => false
  | some s => s ≠ ""

/-- Python truthiness of an optional integer, as in `if work_item_id:`:
None and 0 are falsy. -/
def pyTruthyNat : Option Nat → Bool
  | none => false
  | some n => n ≠ 0

/-- First-of-two options, written as a plain function so that goals stay
readable. -/
def orElseO {α : Type} : Option α → Option α → Option α
  | some v, _ => some v
  | none, b => b

/-- Association-list lookup in which later entries shadow earlier ones,
matching a Python dict built by successive key assignment or dict.update. -/
def assocGet {α : Type} : List (String × α) → String → Option α
  | [], _ => none
  | p :: rest, k => orElseO (assocGet rest k) (if p.1 = k then some p.2 else none)

/-! ## Configuration Resolver: config/azure_config.py, class AzureConfig -/

/-- Constant, non-secret defaults returned by the `_get_public_defaults`
method of AzureConfig. -/
def public_defaults : List (String × String) :=
  [("organization_url", "https://dev.azure.com/ttapani-solutions"),
   ("project", "test-automation-framework"),
   ("default_work_item_type", "Test Case"),
   ("default_bug_priority", "2"),
   ("default_bug_severity", "3 - Medium")]

/-- State of the optional local override file config/azure_local.json:
absent, present but unparseable, or a parsed flat key-value document. -/
inductive LocalFile where
  | absent
  | corrupt
  | doc (entries : List (String × String))
deriving DecidableEq

/-- Behavior of the `_get_local_config` method of AzureConfig: an absent file
yields the empty dict; a parse failure (json.JSONDecodeError or IOError)
prints a warning and yields the empty dict; otherwise the parsed document is
returned. -/
def get_local_config : LocalFile → List (String × String)
  | .absent => []
  | .corrupt => []
  | .doc entries => entries

/-- Fixed environment-variable-to-key table of the `_get_env_config` method
of AzureConfig. -/
def env_mapping : List (String × String) :=
  [("AZURE_DEVOPS_ORG_URL", "organization_url"),
   ("AZURE_DEVOPS_PROJECT", "project"),
   ("AZURE_DEVOPS_PAT", "personal_access_token"),
   ("AZURE_DEVOPS_DEFAULT_ASSIGNEE", "default_assignee")]

/-- Behavior of the `_get_env_config` method of AzureConfig: for each table
row, include the key when the environment value is truthy (os.getenv yields
the set value or None, and `if value:` excludes both unset variables and the
empty string).  The process environment is modelled as a partial map from
variable name to value. -/
def get_env_config (env : String → Option String) : List (String × String) :=
  env_mapping.filterMap fun p =>
    match env p.1 with
    | some v => if v ≠ "" then some (p.2, v) else none
    | none => none

/-- Merged dictionary built by the `get_configuration` method of AzureConfig:
update with the defaults, then the local file, then the environment; in the
shadowing association-list model an overlay is an append. -/
def merged_config (lf : LocalFile) (env : String → Option String) :
    List (String × String) :=
  public_defaults ++ get_local_config lf ++ get_env_config env

/-- Mandatory keys checked by the `_validate_config` method of AzureConfig. -/
def required_fields : List String :=
  ["organization_url", "project", "personal_access_token"]

/-- Keys found missing or empty by the `_validate_config` method of
AzureConfig after the merge, via the comprehension
`[field for field in required_fields if not config.get(field)]`. -/
def validate_config (config : List (String × String)) : List String :=
  required_fields.filter fun f => !pyTruthyStr (assocGet config f)

/-- Error raised by the `_validate_config` method of AzureConfig (a
ValueError in Python, the ConfigurationError of the design), carrying the
list of missing fields it enumerates and the message line built from their
comma-separated join. -/
structure ConfigurationError where
  missing_fields : List String
  message : String
deriving DecidableEq

/-- Enumeration line of the `_validate_config` error message; the remediation
text that follows it in the source is a constant suffix and is omitted. -/
def config_error_message (missing : List String) : String :=
  "Missing required Azure DevOps configuration: " ++ String.intercalate ", " missing

/-- Behavior of the `get_configuration` method of AzureConfig: merge the
defaults, the local file and the environment, then validate; the merge fails
with a ConfigurationError exactly when a mandatory key is missing or empty.
The method performs no remote operation (see config_resolution_wire). -/
def get_configuration (lf : LocalFile) (env : String → Option String) :
    Except ConfigurationError (List (String × String)) :=
  let config := merged_config lf env
  let missing := validate_config config
  if missing.isEmpty then .ok config
  else .error ⟨missing, config_error_message missing⟩

/-! ## Tracking Service Client: azure_integration/azure_devops_client.py,
class AzureDevOpsClient

Each client method is embedded as a pure function returning the list of wire
operations it issues, together with an Except ServiceError result driven by
an explicit ServiceBehavior value standing for the remote service.  A wire
operation that the Python code attempts is recorded in the trace even when
the service then fails it. -/

/-- Value carried by one JSON-patch operation: a string field value, an
integer field value, or a work-item relation (relation type, target URL,
comment attribute). -/
inductive PatchValue where
  | str (s : String)
  | num (n : Nat)
  | rel (relType : String) (url : String) (comment : String)
deriving DecidableEq

/-- One JSON-patch operation of a work-item create or update document, with
fields op, path and value. -/
structure PatchOp where
  op : String
  path : String
  value : PatchValue
deriving DecidableEq

/-- One wire call issued through the Azure DevOps work-item tracking
client. -/
inductive RemoteCall where
  | createWorkItem (project : String) (itemType : String) (document : List PatchOp)
  | updateWorkItem (project : String) (workItemId : Nat) (document : List PatchOp)
deriving DecidableEq

/-- Wire operations issued during configuration resolution.  The body of
AzureConfig.get_configuration consists only of dictionary merging, an
optional local file read and environment lookups; it contains no
tracking-service client call, so its wire trace is empty by construction. -/
def config_resolution_wire (_lf : LocalFile) (_env : String → Option String) :
    List RemoteCall := []

/-- Generic remote failure of the error-handling design (ServiceError): any
network, auth or validation exception raised by a wire call. -/
inductive ServiceError where
  | serviceError
deriving DecidableEq

/-- Behavior of the external service for one synchronization step: whether
each kind of wire call succeeds, and the identifier the service assigns to a
created bug. -/
structure ServiceBehavior where
  newBugId : Nat
  createOk : Bool
  linkOk : Bool
  updateOk : Bool
deriving DecidableEq

/-- Configuration values the client methods read: the organization_url and
project entries of self.config. -/
structure ClientConfig where
  organization_url : String
  project : String
deriving DecidableEq

/-- Document builder shared by the client methods: one add operation per
field, at path /fields/ followed by the field name. -/
def docOfFields (fields : List (String × PatchValue)) : List PatchOp :=
  fields.map fun p => ⟨"add", "/fields/" ++ p.1, p.2⟩

/-- Relation-type selection of the `link_work_items` method: the Basic
process template branch maps the requested kind Tests to
System.LinkTypes.Related, and every other requested kind to the same generic
relation. -/
def link_rel_type (link_type : String) : String :=
  if link_type = "Tests" then "System.LinkTypes.Related"
  else "System.LinkTypes.Related"

/-- Behavior of the `link_work_items` method: a single update_work_item wire
call appending one relation to the source work item, whose URL points at the
target work item under the configured organization and project. -/
def link_work_items (cfg : ClientConfig) (source_id target_id : Nat)
    (link_type : String) : RemoteCall :=
  .updateWorkItem cfg.project source_id
    [⟨"add", "/relations/-",
      .rel (link_rel_type link_type)
        (cfg.organization_url ++ "/" ++ cfg.project ++ "/_workitems/edit/"
          ++ toString target_id)
        ("Linked by Sää app test automation (" ++ link_type ++ ")")⟩]

/-- HTML description template of the `create_bug_from_test_failure` method;
whitespace of the Python triple-quoted string is normalized. -/
def bug_description (test_name error_details test_file : String) : String :=
  "<h3>Automated Test Failure</h3>"
    ++ "<p><strong>Test Function:</strong> " ++ test_name ++ "</p>"
    ++ "<p><strong>Test File:</strong> " ++ test_file ++ "</p>"
    ++ "<h4>Error Details:</h4><pre>" ++ error_details ++ "</pre>"
    ++ "<h4>Investigation Steps:</h4><ul>"
    ++ "<li>Verify if this is a test issue or application bug</li>"
    ++ "<li>Check recent code changes that might affect this functionality</li>"
    ++ "<li>Review test environment and device configuration</li>"
    ++ "<li>Validate test data and assumptions</li></ul>"

/-- Field dictionary of the Bug work item built by the
`create_bug_from_test_failure` method. -/
def bug_fields (test_name error_details test_file : String) :
    List (String × PatchValue) :=
  [("System.Title", .str ("Test Failure: " ++ test_name)),
   ("System.Description", .str (bug_description test_name error_details test_file)),
   ("System.WorkItemType", .str "Bug"),
   ("System.State", .str "New"),
   ("Microsoft.VSTS.Common.Priority", .num 2),
   ("Microsoft.VSTS.Common.Severity", .str "3 - Medium")]

/-- Behavior of the `create_bug_from_test_failure` method: one
create_work_item wire call for the Bug; when linked_test_case_id is truthy,
one further link_work_items call from the new bug to the linked test case
with requested kind Tested By.  A service failure of either wire call raises
ServiceError to the caller; the attempted calls stay in the trace. -/
def create_bug_from_test_failure (cfg : ClientConfig) (svc : ServiceBehavior)
    (test_name error_details test_file : String)
    (linked_test_case_id : Option Nat) :
    List RemoteCall × Except ServiceError Nat :=
  let createCall : RemoteCall :=
    .createWorkItem cfg.project "Bug"
      (docOfFields (bug_fields test_name error_details test_file))
  if svc.createOk then
    if pyTruthyNat linked_test_case_id then
      let linkCall :=
        link_work_items cfg svc.newBugId (linked_test_case_id.getD 0) "Tested By"
      ([createCall, linkCall],
       if svc.linkOk then .ok svc.newBugId else .error .serviceError)
    else ([createCall], .ok svc.newBugId)
  else ([createCall], .error .serviceError)

/-- History comment wrapper of the `update_test_result` method. -/
def history_comment (execution_details : String) : String :=
  "<strong>Automated Test Result:</strong><br/>" ++ execution_details

/-- Behavior of the `update_test_result` method: status PASSED appends a
state patch to Closed, status FAILED a state patch to Ready, any other status
none; a truthy execution_details argument appends a System.History patch; the
single update_work_item wire call is issued only when the document is
non-empty. -/
def update_test_result (cfg : ClientConfig) (svc : ServiceBehavior)
    (work_item_id : Nat) (test_status : String)
    (execution_details : Option String) :
    List RemoteCall × Except ServiceError Unit :=
  let stateUpdates : List PatchOp :=
    if test_status = "PASSED" then
      [⟨"add", "/fields/System.State", .str "Closed"⟩]
    else if test_status = "FAILED" then
      [⟨"add", "/fields/System.State", .str "Ready"⟩]
    else []
  let updates := stateUpdates ++
    (if pyTruthyStr execution_details then
      [⟨"add", "/fields/System.History",
        .str (history_comment (execution_details.getD ""))⟩]
     else [])
  if updates.isEmpty then ([], .ok ())
  else ([.updateWorkItem cfg.project work_item_id updates],
        if svc.updateOk then .ok () else .error .serviceError)

/-! ## Mapping Store: azure_integration/azure_devops_client.py,
class TestCaseMapper -/

/-- One value of the persisted mapping table, with keys work_item_id,
work_item_type and azure_url. -/
structure MapEntry where
  work_item_id : Nat
  work_item_type : String
  azure_url : String
deriving DecidableEq

/-- State of the backing file config/test_mapping.json: absent, present but
unparseable, or holding a saved table.  The JSON text encoding is abstracted:
a saved file holds the document that json.dump wrote and json.load reads
back. -/
inductive MapFile where
  | absent
  | corrupt
  | saved (table : List (String × MapEntry))
deriving DecidableEq

/-- In-memory state of a TestCaseMapper: the self.mappings dict and the
backing file. -/
structure MapperState where
  mappings : List (String × MapEntry)
  file : MapFile
deriving DecidableEq

/-- Behavior of the `_load_mappings` method of TestCaseMapper: a missing file
yields the empty table without error; an unparseable file prints a warning
(second component true) and yields the empty table; otherwise the parsed
table is returned. -/
def load_mappings : MapFile → List (String × MapEntry) × Bool
  | .absent => ([], false)
  | .corrupt => ([], true)
  | .saved table => (table, false)

/-- Constructor of TestCaseMapper: load the persisted table from the backing
file. -/
def mapper_init (fs : MapFile) : MapperState :=
  ⟨(load_mappings fs).1, fs⟩

/-- Azure URL stored by the `add_mapping` method of TestCaseMapper: a
hard-coded organization and project template,
https://dev.azure.com/ttapani-solutions/test-automation-framework/_workitems/edit/
followed by the work item id, written literally in the source rather than
read from configuration. -/
def mapped_azure_url (work_item_id : Nat) : String :=
  "https://dev.azure.com/ttapani-solutions/test-automation-framework/_workitems/edit/"
    ++ toString work_item_id

/-- Behavior of the `add_mapping` method of TestCaseMapper: assign the entry
under the test function key (in the shadowing association-list model, append)
and immediately persist the whole table via the `_save_mappings` method. -/
def add_mapping (s : MapperState) (test_function : String)
    (work_item_id : Nat) (work_item_type : String) : MapperState :=
  let m := s.mappings ++
    [(test_function, ⟨work_item_id, work_item_type, mapped_azure_url work_item_id⟩)]
  ⟨m, .saved m⟩

/-- Behavior of the `get_work_item_id` method of TestCaseMapper: the
work_item_id field of the entry when one exists, otherwise None. -/
def get_work_item_id (s : MapperState) (test_function : String) : Option Nat :=
  (assocGet s.mappings test_function).map fun m => m.work_item_id

/-! ## Result Synchronizer: conftest.py -/

/-- Outcome classification of the execution-phase report, following
report.passed, report.failed, and the remaining skipped branch. -/
inductive Outcome where
  | passed
  | failed
  | skipped
deriving DecidableEq

/-- Fields of the pytest TestReport read by the hook.  The workItemId field
models the azure_work_item_id attribute stored by the fixture (none when the
attribute is absent); duration is the pre-formatted two-decimal text and
startTime the formatted report.start value. -/
structure Report where
  nodeid : String
  phase : String
  workItemId : Option Nat
  outcome : Outcome
  longrepr : String
  fspath : String
  startTime : String
  duration : String
deriving DecidableEq

/-- Execution-details text composed by pytest_runtest_logreport for a PASSED
outcome; whitespace of the Python triple-quoted f-string is normalized. -/
def passed_details (r : Report) : String :=
  "Test executed successfully on " ++ r.startTime
    ++ " Duration: " ++ r.duration ++ " seconds Test: " ++ r.nodeid

/-- Execution-details text composed by pytest_runtest_logreport for a FAILED
outcome. -/
def failed_details (r : Report) : String :=
  "Test failed on " ++ r.startTime
    ++ " Duration: " ++ r.duration ++ " seconds Test: " ++ r.nodeid
    ++ " Error Details: " ++ r.longrepr

/-- Execution-details text composed by pytest_runtest_logreport for a SKIPPED
outcome; an empty longrepr falls back to the text No reason provided. -/
def skipped_details (r : Report) : String :=
  "Test was skipped on " ++ r.startTime
    ++ " Reason: " ++ (if r.longrepr ≠ "" then r.longrepr else "No reason provided")
    ++ " Test: " ++ r.nodeid

/-- One call into the Tracking Service Client made by the hook, with the
arguments the hook passes. -/
inductive ClientInvocation where
  | updateTestResult (work_item_id : Nat) (test_status : String)
      (execution_details : Option String)
  | createBugFromTestFailure (test_name error_details test_file : String)
      (linked_test_case_id : Option Nat)
deriving DecidableEq

/-- Result of one pytest_runtest_logreport invocation: the client-level calls
it made, the wire operations those calls attempted, and whether an exception
escaped the hook. -/
structure HookResult where
  clientCalls : List ClientInvocation
  wire : List RemoteCall
  raised : Bool
deriving DecidableEq

/-- Body of pytest_runtest_logreport once a work item id is present: classify
the outcome, compose the details text, on failure attempt
create_bug_from_test_failure inside its own try/except (its error is
swallowed at this level), then call update_test_result; the update result is
passed back to the outer handler of the hook. -/
def sync_with_work_item (cfg : ClientConfig) (svc : ServiceBehavior)
    (r : Report) (id : Nat) :
    List ClientInvocation × List RemoteCall × Except ServiceError Unit :=
  match r.outcome with
  | .passed =>
      let d := passed_details r
      let u := update_test_result cfg svc id "PASSED" (some d)
      ([.updateTestResult id "PASSED" (some d)], u.1, u.2)
  | .failed =>
      let d := failed_details r
      let b := create_bug_from_test_failure cfg svc r.nodeid r.longrepr r.fspath (some id)
      let u := update_test_result cfg svc id "FAILED" (some d)
      ([.createBugFromTestFailure r.nodeid r.longrepr r.fspath (some id),
        .updateTestResult id "FAILED" (some d)],
       b.1 ++ u.1, u.2)
  | .skipped =>
      let d := skipped_details r
      let u := update_test_result cfg svc id "SKIPPED" (some d)
      ([.updateTestResult id "SKIPPED" (some d)], u.1, u.2)

/-- Behavior of pytest_runtest_logreport: process only the call phase; return
silently when the report carries no azure_work_item_id attribute; otherwise
run the synchronization body.  The body sits inside a try/except Exception
handler, so any ServiceError of the update call is caught and logged — the
hook itself never raises, which the raised field records as false. -/
def pytest_runtest_logreport (cfg : ClientConfig) (svc : ServiceBehavior)
    (r : Report) : HookResult :=
  if r.phase = "call" then
    match r.workItemId with
    | none => ⟨[], [], false⟩
    | some id =>
        let body := sync_with_work_item cfg svc r id
        ⟨body.1, body.2.1, false⟩
  else ⟨[], [], false⟩

/-- Identifier resolution of azure_devops_integration_fixture: a truthy
Mapping Store lookup wins; otherwise the static azure_work_item_id attribute
set by the decorator (modelled as staticAssoc) is used when present;
otherwise there is no mapping. -/
def resolve_work_item_id (store : MapperState) (staticAssoc : Option Nat)
    (test_name : String) : Option Nat :=
  let wid := get_work_item_id store test_name
  if pyTruthyNat wid then wid else staticAssoc

/-- Per-test synchronization states of the Result Synchronizer design. -/
inductive SyncState where
  | pending
  | resolvingId
  | skippedNoMapping
  | syncing
  | done
deriving DecidableEq

/-- One whole synchronization step for one test: resolve the entry id in the
fixture order; with no resolution, terminate in skippedNoMapping with no
client calls and no wire operations; otherwise run the reporting hook on the
call-phase report. -/
def synchronizeTest (cfg : ClientConfig) (svc : ServiceBehavior)
    (store : MapperState) (staticAssoc : Option Nat) (test_name : String)
    (oc : Outcome) (longrepr fspath startTime dur : String) :
    SyncState × HookResult :=
  match resolve_work_item_id store staticAssoc test_name with
  | none => (.skippedNoMapping, ⟨[], [], false⟩)
  | some id =>
      (.done,
       pytest_runtest_logreport cfg svc
         ⟨test_name, "call", some id, oc, longrepr, fspath, startTime, dur⟩)

/-! ## Trace observers -/

/-- State-transition patch operations contained in update_work_item wire
calls: pairs of target work item and new state value.  The initial
System.State field of a create document is not a transition of an existing
entry and is not counted. -/
def stateTransitions : List RemoteCall → List (Nat × PatchValue)
  | [] => []
  | .updateWorkItem _ id doc :: rest =>
      ((doc.filter fun p => p.path = "/fields/System.State").map
        fun p => (id, p.value)) ++ stateTransitions rest
  | .createWorkItem _ _ _ :: rest => stateTransitions rest

/-- History values appended by update_work_item wire calls in a trace. -/
def historyOps : List RemoteCall → List PatchValue
  | [] => []
  | .updateWorkItem _ _ doc :: rest =>
      ((doc.filter fun p => p.path = "/fields/System.History").map
        fun p => p.value) ++ historyOps rest
  | .createWorkItem _ _ _ :: rest => historyOps rest

/-- Number of Bug-creating wire calls in a trace. -/
def bugCreations : List RemoteCall → Nat
  | [] => 0
  | .createWorkItem _ ty _ :: rest =>
      (if ty = "Bug" then 1 else 0) + bugCreations rest
  | .updateWorkItem _ _ _ :: rest => bugCreations rest

/-- Relation types appearing in the relation patch operations of a trace,
paired with the target URL each relation points at. -/
def relationsOf : List RemoteCall → List (String × String)
  | [] => []
  | .updateWorkItem _ _ doc :: rest =>
      (doc.filterMap fun p =>
        match p.value with
        | .rel rt url _ => if p.path = "/relations/-" then some (rt, url) else none
        | _ => none) ++ relationsOf rest
  | .createWorkItem _ _ _ :: rest => relationsOf rest

/-- Test whether a client invocation is a create_bug_from_test_failure
call. -/
def isBugInvocation : ClientInvocation → Bool
  | .createBugFromTestFailure _ _ _ _ => true
  | .updateTestResult _ _ _ => false

/-! ## Concrete values used by closed theorems -/

/-- Client configuration equal to the public defaults, the resolved
configuration of a run with no overrides. -/
def default_client_config : ClientConfig :=
  ⟨"https://dev.azure.com/ttapani-solutions", "test-automation-framework"⟩

/-- Service behavior in which every wire call succeeds and a created bug
receives id 100. -/
def svc_ok : ServiceBehavior := ⟨100, true, true, true⟩

/-- Mapper state whose table maps the identifier test_login to a work item
with id 0. -/
def store_with_zero_entry : MapperState :=
  mapper_init (.saved [("test_login", ⟨0, "Test Case", mapped_azure_url 0⟩)])

/-- Mapper state whose table maps the identifier test_login to a work item
with id 42. -/
def store_42 : MapperState :=
  mapper_init (.saved [("test_login", ⟨42, "Test Case", mapped_azure_url 42⟩)])

/-- Environment in which the organization URL, project and credential token
are all overridden away from the public defaults. -/
def env_contoso : String → Option String := fun k =>
  if k = "AZURE_DEVOPS_ORG_URL" then some "https://dev.azure.com/contoso-org"
  else if k = "AZURE_DEVOPS_PROJECT" then some "weather-app"
  else if k = "AZURE_DEVOPS_PAT" then some "secret-token" else none

/-- Work-item URL template derived from a resolved configuration: base
address, project, the _workitems/edit path, and the id.  This is the shape
the client itself uses wherever it builds a URL from configuration (the
link_work_items method). -/
def config_based_url (config : List (String × String)) (id : Nat) : String :=
  (assocGet config "organization_url").getD "" ++ "/"
    ++ (assocGet config "project").getD "" ++ "/_workitems/edit/" ++ toString id

/-! ## General lemmas -/

@[simp] theorem orElseO_some {α : Type} (v : α) (b : Option α) :
    orElseO (some v) b = some v := rfl

@[simp] theorem orElseO_none {α : Type} (b : Option α) :
    orElseO none b = b := rfl

theorem assocGet_append {α : Type} (d₁ d₂ : List (String × α)) (k : String) :
    assocGet (d₁ ++ d₂) k = orElseO (assocGet d₂ k) (assocGet d₁ k) := by
  induction d₁ with
  | nil => cases h : assocGet d₂ k <;> simp [assocGet, h]
  | cons p rest ih =>
      simp only [List.cons_append, assocGet, List.append_eq]
      rw [ih]
      cases h : assocGet d₂ k <;> cases h2 : assocGet rest k <;> simp [h, h2]

theorem assocGet_snoc_self {α : Type} (m : List (String × α)) (fn : String) (v : α) :
    assocGet (m ++ [(fn, v)]) fn = some v := by
  rw [assocGet_append]
  simp [assocGet]

theorem stateTransitions_append (t₁ t₂ : List RemoteCall) :
    stateTransitions (t₁ ++ t₂) = stateTransitions t₁ ++ stateTransitions t₂ := by
  induction t₁ with
  | nil => simp [stateTransitions]
  | cons c rest ih => cases c <;> simp [stateTransitions, ih]

theorem historyOps_append (t₁ t₂ : List RemoteCall) :
    historyOps (t₁ ++ t₂) = historyOps t₁ ++ historyOps t₂ := by
  induction t₁ with
  | nil => simp [historyOps]
  | cons c rest ih => cases c <;> simp [historyOps, ih]

theorem bugCreations_append (t₁ t₂ : List RemoteCall) :
    bugCreations (t₁ ++ t₂) = bugCreations t₁ + bugCreations t₂ := by
  induction t₁ with
  | nil => simp [bugCreations]
  | cons c rest ih =>
      cases c <;> simp [bugCreations, ih]
      omega

theorem relationsOf_append (t₁ t₂ : List RemoteCall) :
    relationsOf (t₁ ++ t₂) = relationsOf t₁ ++ relationsOf t₂ := by
  induction t₁ with
  | nil => simp [relationsOf]
  | cons c rest ih => cases c <;> simp [relationsOf, ih]

/-! ## Lemmas about client call traces -/

theorem update_trace_state (cfg : ClientConfig) (svc : ServiceBehavior)
    (id : Nat) (status : String) (details : Option String) :
    stateTransitions (update_test_result cfg svc id status details).1 =
      (if status = "PASSED" then [(id, PatchValue.str "Closed")]
       else if status = "FAILED" then [(id, PatchValue.str "Ready")]
       else []) := by
  unfold update_test_result
  cases h : pyTruthyStr details <;>
    by_cases hp : status = "PASSED" <;>
      by_cases hf : status = "FAILED" <;>
        simp [hp, hf, stateTransitions, List.filter]

theorem update_trace_history (cfg : ClientConfig) (svc : ServiceBehavior)
    (id : Nat) (status : String) (details : Option String) :
    historyOps (update_test_result cfg svc id status details).1 =
      (if pyTruthyStr details then
        [PatchValue.str (history_comment (details.getD ""))]
       else []) := by
  unfold update_test_result
  cases h : pyTruthyStr details <;>
    by_cases hp : status = "PASSED" <;>
      by_cases hf : status = "FAILED" <;>
        simp [hp, hf, historyOps, List.filter]

theorem update_trace_no_creations (cfg : ClientConfig) (svc : ServiceBehavior)
    (id : Nat) (status : String) (details : Option String) :
    bugCreations (update_test_result cfg svc id status details).1 = 0 := by
  unfold update_test_result
  cases h : pyTruthyStr details <;>
    by_cases hp : status = "PASSED" <;>
      by_cases hf : status = "FAILED" <;>
        simp [hp, hf, bugCreations]

theorem bug_trace_creations (cfg : ClientConfig) (svc : ServiceBehavior)
    (name err file : String) (linked : Option Nat) :
    bugCreations (create_bug_from_test_failure cfg svc name err file linked).1 = 1 := by
  unfold create_bug_from_test_failure
  cases hc : svc.createOk <;> cases h : pyTruthyNat linked <;>
    simp [bugCreations, link_work_items]

theorem bug_trace_no_state (cfg : ClientConfig) (svc : ServiceBehavior)
    (name err file : String) (linked : Option Nat) :
    stateTransitions (create_bug_from_test_failure cfg svc name err file linked).1 = [] := by
  unfold create_bug_from_test_failure
  cases hc : svc.createOk <;> cases h : pyTruthyNat linked <;>
    simp [stateTransitions, link_work_items, List.filter]

theorem bug_trace_relations (cfg : ClientConfig) (svc : ServiceBehavior)
    (name err file : String) (tc : Nat) (h : tc ≠ 0) (hok : svc.createOk = true) :
    relationsOf (create_bug_from_test_failure cfg svc name err file (some tc)).1 =
      [("System.LinkTypes.Related",
        cfg.organization_url ++ "/" ++ cfg.project ++ "/_workitems/edit/" ++ toString tc)] := by
  unfold create_bug_from_test_failure
  simp [hok, pyTruthyNat, h, relationsOf, link_work_items, link_rel_type, List.filterMap]

/-! ## Claim theorems -/

/-- C1: for every synchronized test whose execution report has outcome FAILED
and a resolved work item id, and under every service behavior, the reporting
hook issues exactly one state-transition operation through an
update_work_item call — targeting the resolved work item and setting the
Ready (open) state — and makes exactly one create_bug_from_test_failure
invocation whose linked_test_case_id argument is that work item id, attempting
exactly one Bug-creating wire call; and the hook completes without raising, in
particular also when the service fails the bug-creation call with a
ServiceError. -/
theorem c1_failed_outcome_sync (cfg : ClientConfig) (svc : ServiceBehavior)
    (n e f s d : String) (id : Nat) :
    let res := pytest_runtest_logreport cfg svc ⟨n, "call", some id, .failed, e, f, s, d⟩
    stateTransitions res.wire = [(id, PatchValue.str "Ready")] ∧
    res.clientCalls.filter isBugInvocation =
      [ClientInvocation.createBugFromTestFailure n e f (some id)] ∧
    bugCreations res.wire = 1 ∧
    res.raised = false := by
  have hw : (pytest_runtest_logreport cfg svc ⟨n, "call", some id, .failed, e, f, s, d⟩).wire
      = (create_bug_from_test_failure cfg svc n e f (some id)).1
        ++ (update_test_result cfg svc id "FAILED"
              (some (failed_details ⟨n, "call", some id, .failed, e, f, s, d⟩))).1 := rfl
  refine ⟨?_, ?_, ?_, rfl⟩
  · rw [hw, stateTransitions_append, bug_trace_no_state, update_trace_state]
    simp
  · rfl
  · rw [hw, bugCreations_append, bug_trace_creations, update_trace_no_creations]

/-- C2 counterexample: calling update_test_result with the provided but empty
detail string does not append a history entry, so the biconditional of the
claim — a history entry is appended if and only if a detail is provided —
fails at the concrete input (id 1, status PASSED, detail the empty string). -/
theorem c2_counterexample :
    ¬ ((historyOps (update_test_result default_client_config svc_ok 1 "PASSED" (some "")).1 ≠ []) ↔
        (some "" : Option String).isSome = true) := by decide

/-- C2 (amended): update_test_result maps status PASSED to exactly one state
transition to Closed, status FAILED to exactly one state transition to Ready,
and status SKIPPED to no state transition; it never issues a bug-creating
wire call; and it appends the detail as a history entry if and only if a
non-empty detail is provided (Python truthiness of the argument), the amended
form forced by the counterexample with an empty provided detail. -/
theorem c2_update_result_mapping (cfg : ClientConfig) (svc : ServiceBehavior)
    (id : Nat) (details : Option String) :
    stateTransitions (update_test_result cfg svc id "PASSED" details).1 =
      [(id, PatchValue.str "Closed")] ∧
    stateTransitions (update_test_result cfg svc id "FAILED" details).1 =
      [(id, PatchValue.str "Ready")] ∧
    stateTransitions (update_test_result cfg svc id "SKIPPED" details).1 = [] ∧
    (∀ status : String,
      bugCreations (update_test_result cfg svc id status details).1 = 0) ∧
    (∀ status : String,
      historyOps (update_test_result cfg svc id status details).1 =
        if pyTruthyStr details then
          [PatchValue.str (history_comment (details.getD ""))]
        else []) := by
  refine ⟨?_, ?_, ?_, fun status => update_trace_no_creations cfg svc id status details,
          fun status => update_trace_history cfg svc id status details⟩ <;>
    rw [update_trace_state] <;> simp

/-- C3: for every test identifier whose Mapping Store lookup yields nothing
and which carries no static association, the synchronization step terminates
in the skippedNoMapping state with no client invocation and no wire
operation issued to the tracking service. -/
theorem c3_skipped_no_mapping (cfg : ClientConfig) (svc : ServiceBehavior)
    (store : MapperState) (t e f s d : String) (oc : Outcome)
    (h : get_work_item_id store t = none) :
    synchronizeTest cfg svc store none t oc e f s d =
      (SyncState.skippedNoMapping, ⟨[], [], false⟩) := by
  unfold synchronizeTest resolve_work_item_id
  rw [h]
  simp [pyTruthyNat]

/-- C3 witness: a concrete synchronization step over an empty store and no
static association terminates in skippedNoMapping with empty traces. -/
theorem c3_witness :
    synchronizeTest default_client_config svc_ok (mapper_init .absent) none
      "test_oulu_search" .failed "err" "file" "t0" "1.00" =
      (SyncState.skippedNoMapping, ⟨[], [], false⟩) :=
  c3_skipped_no_mapping default_client_config svc_ok (mapper_init .absent)
    "test_oulu_search" "err" "file" "t0" "1.00" .failed (by decide)

/-- C4 counterexample: the store maps test_login to an entry with work item
id 0, yet resolution with a static association 5 returns 5 — the Mapping
Store entry is not used even though it exists, because the fixture tests the
looked-up id for Python truthiness, so the claim fails at this concrete
input. -/
theorem c4_counterexample :
    assocGet store_with_zero_entry.mappings "test_login" =
      some ⟨0, "Test Case", mapped_azure_url 0⟩ ∧
    resolve_work_item_id store_with_zero_entry (some 5) "test_login" = some 5 := by
  decide

/-- C4 (amended): resolution consults the Mapping Store first and the static
association second — for every identifier with a store entry whose id is
non-zero, that id is used even when a static association exists (an entry id
of 0 is treated as absent, the amendment forced by the counterexample); with
no store entry the static association is used; and with neither, the
synchronization step terminates in skippedNoMapping rather than failing. -/
theorem c4_resolution_order (store : MapperState) (sa : Option Nat) (t : String) :
    (∀ e : MapEntry, assocGet store.mappings t = some e → e.work_item_id ≠ 0 →
        resolve_work_item_id store sa t = some e.work_item_id) ∧
    (assocGet store.mappings t = none → resolve_work_item_id store sa t = sa) ∧
    (assocGet store.mappings t = none → sa = none →
      ∀ (cfg : ClientConfig) (svc : ServiceBehavior) (oc : Outcome) (e f s d : String),
        (synchronizeTest cfg svc store none t oc e f s d).1 =
          SyncState.skippedNoMapping) := by
  refine ⟨?_, ?_, ?_⟩
  · intro e he hz
    unfold resolve_work_item_id get_work_item_id
    rw [he]
    simp [pyTruthyNat, hz]
  · intro hn
    unfold resolve_work_item_id get_work_item_id
    rw [hn]
    simp [pyTruthyNat]
  · intro hn hsa cfg svc oc e f s d
    subst hsa
    unfold synchronizeTest resolve_work_item_id get_work_item_id
    rw [hn]
    simp [pyTruthyNat]

/-- C4 witness: with a store entry of non-zero id 42 and a static association
5 for the same identifier, resolution returns 42. -/
theorem c4_witness :
    resolve_work_item_id store_42 (some 5) "test_login" = some 42 :=
  (c4_resolution_order store_42 (some 5) "test_login").1
    ⟨42, "Test Case", mapped_azure_url 42⟩ (by decide) (by decide)

/-- C5: for every merged configuration in which some mandatory key is missing
or empty, get_configuration fails with a ConfigurationError that enumerates
exactly the mandatory keys that are missing or empty (its message is the
comma-separated join of that list), and configuration resolution issues no
wire operation towards the tracking service. -/
theorem c5_missing_mandatory_key (lf : LocalFile) (env : String → Option String)
    (h : validate_config (merged_config lf env) ≠ []) :
    get_configuration lf env =
      .error ⟨validate_config (merged_config lf env),
              config_error_message (validate_config (merged_config lf env))⟩ ∧
    (∀ k : String, k ∈ validate_config (merged_config lf env) ↔
        k ∈ required_fields ∧ pyTruthyStr (assocGet (merged_config lf env) k) = false) ∧
    config_resolution_wire lf env = [] := by
  refine ⟨?_, ?_, rfl⟩
  · unfold get_configuration
    rw [if_neg]
    simpa using h
  · intro k
    simp [validate_config, List.mem_filter]

/-- C5 witness: with no local file and an empty environment, the merge lacks
only the credential token and resolution fails with exactly that key
enumerated. -/
theorem c5_witness :
    get_configuration LocalFile.absent (fun _ => none) =
      .error ⟨["personal_access_token"],
              config_error_message ["personal_access_token"]⟩ := by
  have h := (c5_missing_mandatory_key LocalFile.absent (fun _ => none) (by decide)).1
  rw [h]
  rfl

/-- C6: for every key, the merged configuration resolves to the
environment-derived value when the environment source provides one, otherwise
to the local-file value when the file source provides one, otherwise to the
public default — the layering defaults, then local file, then environment,
with the environment always winning. -/
theorem c6_env_over_file_over_defaults (lf : LocalFile)
    (env : String → Option String) (k : String) :
    assocGet (merged_config lf env) k =
      orElseO (assocGet (get_env_config env) k)
        (orElseO (assocGet (get_local_config lf) k) (assocGet public_defaults k)) := by
  unfold merged_config
  rw [assocGet_append, assocGet_append]

/-- C7 counterexample: with a resolved configuration whose organization URL
and project are overridden through the environment, adding a mapping stores
the hard-coded default URL, which differs from the URL template built from
the resolved configuration — so the stored canonical URL is not computed from
the resolved configuration, refuting the claim at this concrete input. -/
theorem c7_counterexample :
    get_configuration LocalFile.absent env_contoso =
      .ok (merged_config LocalFile.absent env_contoso) ∧
    assocGet (add_mapping (mapper_init .absent) "test_login" 7 "Test Case").mappings
        "test_login" = some ⟨7, "Test Case", mapped_azure_url 7⟩ ∧
    mapped_azure_url 7 ≠ config_based_url (merged_config LocalFile.absent env_contoso) 7 :=
  ⟨rfl, by decide, by decide⟩

/-- C7 (amended): add_mapping inserts or overwrites the entry for the test
identifier — a subsequent lookup returns the most recently added id, also
after re-registration — stores as canonical URL the hard-coded default
organization and project template (independent of the resolved configuration,
the amendment forced by the counterexample), and immediately persists the
entire table back to the backing file. -/
theorem c7_add_mapping_spec (s : MapperState) (fn : String) (id id2 : Nat)
    (ty ty2 : String) :
    get_work_item_id (add_mapping s fn id ty) fn = some id ∧
    assocGet (add_mapping s fn id ty).mappings fn =
      some ⟨id, ty, mapped_azure_url id⟩ ∧
    get_work_item_id (add_mapping (add_mapping s fn id2 ty2) fn id ty) fn = some id ∧
    (add_mapping s fn id ty).file = MapFile.saved (add_mapping s fn id ty).mappings := by
  refine ⟨?_, ?_, ?_, rfl⟩
  · unfold get_work_item_id add_mapping
    rw [assocGet_snoc_self]
    rfl
  · unfold add_mapping
    exact assocGet_snoc_self _ fn _
  · unfold get_work_item_id add_mapping
    rw [assocGet_snoc_self]
    rfl

/-- C8: for every mapper state, identifier, id and type, adding the mapping
and then loading the backing file yields a table whose entry for the
identifier carries exactly that id and type (round-trip persistence through
the backing file). -/
theorem c8_add_then_load_roundtrip (s : MapperState) (fn : String) (id : Nat)
    (ty : String) :
    assocGet (load_mappings (add_mapping s fn id ty).file).1 fn =
      some ⟨id, ty, mapped_azure_url id⟩ :=
  assocGet_snoc_self s.mappings fn ⟨id, ty, mapped_azure_url id⟩

/-- C9: loading the mapping table never fails — an absent backing file yields
the empty table without a warning, a corrupt backing file yields the empty
table with a warning — and from every backing-file state the store stays
usable: a subsequent add followed by a lookup succeeds. -/
theorem c9_load_never_fails :
    load_mappings MapFile.absent = ([], false) ∧
    load_mappings MapFile.corrupt = ([], true) ∧
    ∀ (fs : MapFile) (fn : String) (id : Nat) (ty : String),
      get_work_item_id (add_mapping (mapper_init fs) fn id ty) fn = some id := by
  refine ⟨rfl, rfl, fun fs fn id ty => ?_⟩
  unfold get_work_item_id add_mapping mapper_init
  rw [assocGet_snoc_self]
  rfl

/-- C10: for every source, target and requested relation kind — Tests, Tested
By, Related or any other — the link operation emits a relation whose wire
relation type is the single generic kind System.LinkTypes.Related; in
consequence, the defect created by create_bug_from_test_failure with a
(non-zero) linked entry id is linked to that entry with the generic related
relation and not a distinct tested-by wire relation. -/
theorem c10_links_are_generic_related (cfg : ClientConfig) (svc : ServiceBehavior)
    (src tgt : Nat) (lt name err file : String) (tc : Nat)
    (h : tc ≠ 0) (hok : svc.createOk = true) :
    link_rel_type lt = "System.LinkTypes.Related" ∧
    relationsOf [link_work_items cfg src tgt lt] =
      [("System.LinkTypes.Related",
        cfg.organization_url ++ "/" ++ cfg.project ++ "/_workitems/edit/" ++ toString tgt)] ∧
    relationsOf (create_bug_from_test_failure cfg svc name err file (some tc)).1 =
      [("System.LinkTypes.Related",
        cfg.organization_url ++ "/" ++ cfg.project ++ "/_workitems/edit/" ++ toString tc)] := by
  have hrel : link_rel_type lt = "System.LinkTypes.Related" := by
    unfold link_rel_type
    split <;> rfl
  refine ⟨hrel, ?_, bug_trace_relations cfg svc name err file tc h hok⟩
  simp [relationsOf, link_work_items, hrel, List.filterMap]

/-- C10 witness: creating a bug for a failed test linked to work item 42
under the default configuration emits exactly one relation, of the generic
related kind, pointing at work item 42. -/
theorem c10_witness :
    relationsOf (create_bug_from_test_failure default_client_config svc_ok
        "test_login" "AssertionError: button not found"
        "Test_features_automation_allure.py" (some 42)).1 =
      [("System.LinkTypes.Related",
        "https://dev.azure.com/ttapani-solutions/test-automation-framework/_workitems/edit/42")] := by
  have h := (c10_links_are_generic_related default_client_config svc_ok 1 2 "Tests"
    "test_login" "AssertionError: button not found"
    "Test_features_automation_allure.py" 42 (by decide) rfl).2.2
  rw [h]
  decide
